/-
Verification of the unused-resource scanning engine of the
cloud-cost-alert repository (src/services/unused-resources.ts and the
account-configuration helpers of src/services/cost-explorer.ts).

The TypeScript code is shallowly embedded as pure Lean functions:
network calls (inventory listing, metric queries, role assumption) are
modelled by passing their results, or result-producing environments, as
explicit arguments; JavaScript numbers used for metric values are
modelled as rationals, millisecond timestamps and day counts as
integers; fallible calls are modelled by Except; optional fields by
Option.  JavaScript string falsiness (the "x || fallback" idiom) is
modelled by the strOr helper.
-/
import Mathlib

/-! String helpers.  These replicate the JavaScript string operations
used by the engine (split on a one-character separator, trim, the
EFS-ARN regular-expression match) with structurally recursive
definitions so that concrete instances evaluate. -/

def splitOnCharAux (sep : Char) : List Char → List Char → List (List Char)
  | [], cur => [cur.reverse]
  | c :: rest, cur =>
    if c = sep then cur.reverse :: splitOnCharAux sep rest []
    else splitOnCharAux sep rest (c :: cur)

/-- Model of JavaScript String.split with a one-character separator. -/
def splitOnChar (sep : Char) (s : String) : List String :=
  (splitOnCharAux sep s.toList []).map String.mk

def isSpaceChar (c : Char) : Bool :=
  c = ' ' || c = '\t' || c = '\n' || c = '\r'

/-- Model of JavaScript String.trim. -/
def trimStr (s : String) : String :=
  String.mk (((s.toList.dropWhile isSpaceChar).reverse.dropWhile isSpaceChar).reverse)

/-- Boolean test that the second character list starts with the first. -/
def leadsWith : List Char → List Char → Bool
  | [], _ => true
  | _ :: _, [] => false
  | p :: ps, c :: cs => p = c && leadsWith ps cs

/-- Characters allowed in the id part of the pattern fs-[a-z0-9]+. -/
def efsIdChar (c : Char) : Bool :=
  c.isDigit || (97 ≤ c.toNat && c.toNat ≤ 122)

/-- Scan for the first match of the regular expression
file-system\x2f(fs-[a-z0-9]+) and return the captured group. -/
def findEfsId : List Char → Option String
  | [] => none
  | c :: rest =>
    if leadsWith ("file-system/fs-".toList) (c :: rest) then
      let body := ((c :: rest).drop 15).takeWhile efsIdChar
      if body.isEmpty then findEfsId rest
      else some (String.mk ("fs-".toList ++ body))
    else findEfsId rest

/-- Model of resourceArn.match with the file-system pattern in
checkEFSBackups: the captured id on a match, the empty string
otherwise. -/
def extractEfsId (arn : String) : String :=
  match findEfsId arn.toList with
  | some v => v
  | none => ""

/-- Model of JavaScript Array.join on strings. -/
def joinSep (sep : String) : List String → String
  | [] => ""
  | x :: xs =>
    match xs with
    | [] => x
    | _ :: _ => x ++ sep ++ joinSep sep xs

/-- Model of the JavaScript idiom (o || fallback) on an optional string:
a missing or empty string falls back. -/
def strOr (o : Option String) (fallback : String) : String :=
  match o with
  | some s => if s = "" then fallback else s
  | none => fallback

/-- Model of Number.prototype.toFixed rounded to n decimal digits. -/
def toFixedDigits (n : Nat) (q : ℚ) : String :=
  let m : Int := round (q * (10 : ℚ) ^ n)
  let sign := if m < 0 then "-" else ""
  let a := m.natAbs
  let ip := a / 10 ^ n
  let fp := a % 10 ^ n
  if n = 0 then sign ++ toString ip
  else
    let fs := toString fp
    let pad := String.mk (List.replicate (n - fs.length) '0')
    sign ++ toString ip ++ "." ++ pad ++ fs

/-! Data model (src/types and the engine-local shapes). -/

structure AwsCredentials where
  accessKeyId : String
  secretAccessKey : String
  sessionToken : Option String
deriving Repr, DecidableEq

structure UnusedResource where
  service : String
  resourceId : String
  resourceName : String
  region : String
  cost : ℚ
  reason : String
  accountId : Option String := none
  accountName : Option String := none
deriving Repr, DecidableEq

/-- Aggregation unit returned by scanAccountRegions and accumulated by
detectUnusedResources. -/
structure ScanOutcome where
  resources : List UnusedResource
  errors : Nat
deriving Repr, DecidableEq

structure Tag where
  key : String
  value : Option String
deriving Repr, DecidableEq

/-- Lookup of a Name tag: Tags find on Key, then the optional Value. -/
def nameTagValue (tags : List Tag) : Option String :=
  (tags.find? (fun t => t.key == "Name")).bind (fun t => t.value)

/-! Fixed configuration of the engine. -/

def AWS_REGIONS : List String :=
  ["us-east-1", "us-east-2", "us-west-1", "us-west-2",
   "ap-south-1", "ap-northeast-1", "ap-northeast-2", "ap-northeast-3",
   "ap-southeast-1", "ap-southeast-2", "ca-central-1", "eu-central-1",
   "eu-west-1", "eu-west-2", "eu-west-3", "eu-north-1", "sa-east-1"]

def CPU_THRESHOLD : ℚ := 5

def NETWORK_THRESHOLD : ℚ := 1000

def CONNECTIONS_THRESHOLD : ℚ := 1

def msPerDay : Int := 24 * 60 * 60 * 1000

/-! MetricGateway: getCloudWatchMetric and getCloudWatchSumMetric.  The
request construction (one-day period, end date extended by one day) is
not observable in the returned number; the functions are modelled as
total maps from the backend outcome, an Except carrying either a
failure or the returned datapoint list, to the numeric tri-state result
the callers branch on. -/

structure Datapoint where
  average : Option ℚ
  sum : Option ℚ
deriving Repr, DecidableEq

/-- Average-statistic query result: mean of the per-datapoint averages,
the no-data sentinel -2 on an empty datapoint list, the error sentinel
-1 on a failed call. -/
def getCloudWatchMetric (resp : Except String (List Datapoint)) : ℚ :=
  match resp with
  | Except.error _ => -1
  | Except.ok dps =>
    if 0 < dps.length then
      (dps.foldl (fun acc dp => acc + dp.average.getD 0) 0) / (dps.length : ℚ)
    else -2

/-- Sum-statistic query result: sum of the per-datapoint sums, with the
same two sentinels. -/
def getCloudWatchSumMetric (resp : Except String (List Datapoint)) : ℚ :=
  match resp with
  | Except.error _ => -1
  | Except.ok dps =>
    if 0 < dps.length then
      dps.foldl (fun acc dp => acc + dp.sum.getD 0) 0
    else -2

/-! CredentialResolver: assumeRole. -/

structure StsCredentials where
  accessKeyId : Option String
  secretAccessKey : Option String
  sessionToken : Option String
deriving Repr, DecidableEq

/-- Model of assumeRole over the outcome of the STS call: null (none)
on a failed call or on a response missing either key, the temporary
credentials otherwise. -/
def assumeRole (resp : Except String (Option StsCredentials)) : Option AwsCredentials :=
  match resp with
  | Except.error _ => none
  | Except.ok none => none
  | Except.ok (some c) =>
    if strOr c.accessKeyId "" = "" || strOr c.secretAccessKey "" = "" then none
    else some ⟨strOr c.accessKeyId "", strOr c.secretAccessKey "", c.sessionToken⟩

/-! ResourceCheckers.  Every checker takes the region, the inventory
the cloud backend returned, and the metric gateway as an environment
function from namespace, metric name and dimension list to the numeric
tri-state result (a getCloudWatchMetric or getCloudWatchSumMetric
value).  Each per-item classifier mirrors one iteration of the source
loop; the checker is the loop. -/

/-- Metric gateway environment: namespace, metric name, dimensions. -/
abbrev MetricFn := String → String → List (String × String) → ℚ

/-! checkEC2Instances. -/

structure EC2Instance where
  instanceId : Option String
  tags : List Tag
deriving Repr, DecidableEq

structure Reservation where
  instances : List EC2Instance
deriving Repr, DecidableEq

def ec2Cpu (metric : MetricFn) (instanceId : String) : ℚ :=
  metric "AWS/EC2" "CPUUtilization" [("InstanceId", instanceId)]

def ec2NetIn (metric : MetricFn) (instanceId : String) : ℚ :=
  metric "AWS/EC2" "NetworkIn" [("InstanceId", instanceId)]

def ec2NetOut (metric : MetricFn) (instanceId : String) : ℚ :=
  metric "AWS/EC2" "NetworkOut" [("InstanceId", instanceId)]

def classifyEC2Instance (region : String) (metric : MetricFn) (inst : EC2Instance) :
    List UnusedResource :=
  let instanceId := strOr inst.instanceId ""
  let instanceName := strOr (nameTagValue inst.tags) instanceId
  let cpuAvg := ec2Cpu metric instanceId
  if 0 ≤ cpuAvg ∧ cpuAvg < CPU_THRESHOLD then
    [⟨"Amazon EC2", instanceId, instanceName, region, 0,
      "Low CPU (" ++ toFixedDigits 1 cpuAvg ++ "% avg)", none, none⟩]
  else
    let networkIn := ec2NetIn metric instanceId
    let networkOut := ec2NetOut metric instanceId
    if 0 ≤ networkIn ∧ 0 ≤ networkOut ∧
        networkIn < NETWORK_THRESHOLD ∧ networkOut < NETWORK_THRESHOLD then
      [⟨"Amazon EC2", instanceId, instanceName, region, 0, "No network traffic", none, none⟩]
    else []

def checkEC2Instances (region : String) (metric : MetricFn)
    (reservations : List Reservation) : List UnusedResource :=
  reservations.flatMap (fun rsv => rsv.instances.flatMap (classifyEC2Instance region metric))

/-! checkEBSVolumes. -/

structure EBSVolume where
  volumeId : Option String
  tags : List Tag
  attachments : List String
deriving Repr, DecidableEq

def ebsReadOps (metric : MetricFn) (volumeId : String) : ℚ :=
  metric "AWS/EBS" "VolumeReadOps" [("VolumeId", volumeId)]

def ebsWriteOps (metric : MetricFn) (volumeId : String) : ℚ :=
  metric "AWS/EBS" "VolumeWriteOps" [("VolumeId", volumeId)]

def classifyEBSVolume (region : String) (metric : MetricFn) (volume : EBSVolume) :
    List UnusedResource :=
  let volumeId := strOr volume.volumeId ""
  let volumeName := strOr (nameTagValue volume.tags) volumeId
  if volume.attachments.length = 0 then
    [⟨"Amazon EBS", volumeId, volumeName, region, 0, "Unattached volume", none, none⟩]
  else
    let readOps := ebsReadOps metric volumeId
    let writeOps := ebsWriteOps metric volumeId
    if 0 ≤ readOps ∧ 0 ≤ writeOps ∧ readOps = 0 ∧ writeOps = 0 then
      [⟨"Amazon EBS", volumeId, volumeName, region, 0, "No I/O operations", none, none⟩]
    else []

def checkEBSVolumes (region : String) (metric : MetricFn)
    (volumes : List EBSVolume) : List UnusedResource :=
  volumes.flatMap (classifyEBSVolume region metric)

/-! checkEBSSnapshots.  The source logs each snapshot and its state but
applies no state filter before classification. -/

structure EBSSnapshot where
  snapshotId : Option String
  tags : List Tag
  volumeId : Option String
  startTime : Option Int
  state : Option String
deriving Repr, DecidableEq

/-- Age in milliseconds: now minus the creation time, 0 when the
creation time is absent. -/
def snapshotAgeMs (nowMs : Int) (t : Option Int) : Int :=
  match t with
  | some x => nowMs - x
  | none => 0

/-- Orphan test of checkEBSSnapshots: non-empty volume id, not the
deleted-volume placeholder, and absent from the current volume
inventory. -/
def ebsSnapshotOrphaned (existingVolumeIds : List String) (volumeId : String) : Prop :=
  volumeId ≠ "" ∧ volumeId ≠ "vol-ffffffff" ∧ volumeId ∉ existingVolumeIds

instance (ids : List String) (v : String) : Decidable (ebsSnapshotOrphaned ids v) := by
  unfold ebsSnapshotOrphaned
  infer_instance

def classifyEBSSnapshot (region : String) (thresholdDays : Int) (nowMs : Int)
    (existingVolumeIds : List String) (s : EBSSnapshot) : List UnusedResource :=
  let snapshotId := strOr s.snapshotId ""
  let snapshotName := strOr (nameTagValue s.tags) snapshotId
  let volumeId := strOr s.volumeId ""
  let ageMs := snapshotAgeMs nowMs s.startTime
  let ageDays := Int.fdiv ageMs msPerDay
  if ebsSnapshotOrphaned existingVolumeIds volumeId then
    [⟨"EBS Snapshot", snapshotId, snapshotName, region, 0,
      "Orphaned (volume " ++ volumeId ++ " deleted)", none, none⟩]
  else if thresholdDays * msPerDay < ageMs then
    [⟨"EBS Snapshot", snapshotId, snapshotName, region, 0,
      "Old snapshot (" ++ toString ageDays ++ " days)", none, none⟩]
  else []

def checkEBSSnapshots (region : String) (thresholdDays : Int) (nowMs : Int)
    (snapshots : List EBSSnapshot) (existingVolumeIds : List String) :
    List UnusedResource :=
  snapshots.flatMap (classifyEBSSnapshot region thresholdDays nowMs existingVolumeIds)

/-! checkRDSSnapshots. -/

structure DBSnapshot where
  dbSnapshotIdentifier : Option String
  dbInstanceIdentifier : Option String
  snapshotCreateTime : Option Int
  snapshotType : Option String
  status : Option String
deriving Repr, DecidableEq

/-- Orphan test of checkRDSSnapshots: non-empty source instance id
absent from the current instance inventory. -/
def rdsSnapshotOrphaned (existingDbIds : List String) (dbInstanceId : String) : Prop :=
  dbInstanceId ≠ "" ∧ dbInstanceId ∉ existingDbIds

instance (ids : List String) (v : String) : Decidable (rdsSnapshotOrphaned ids v) := by
  unfold rdsSnapshotOrphaned
  infer_instance

def classifyRDSSnapshot (region : String) (thresholdDays : Int) (nowMs : Int)
    (existingDbIds : List String) (s : DBSnapshot) : List UnusedResource :=
  if s.status = some "available" then
    let snapshotId := strOr s.dbSnapshotIdentifier ""
    let dbInstanceId := strOr s.dbInstanceIdentifier ""
    let snapshotType := strOr s.snapshotType "manual"
    let ageMs := snapshotAgeMs nowMs s.snapshotCreateTime
    let ageDays := Int.fdiv ageMs msPerDay
    if rdsSnapshotOrphaned existingDbIds dbInstanceId then
      [⟨"RDS Snapshot", snapshotId, snapshotId, region, 0,
        "Orphaned " ++ snapshotType ++ " snapshot (DB " ++ dbInstanceId ++ " deleted)",
        none, none⟩]
    else if thresholdDays * msPerDay < ageMs then
      [⟨"RDS Snapshot", snapshotId, snapshotId, region, 0,
        "Old " ++ snapshotType ++ " snapshot (" ++ toString ageDays ++ " days)",
        none, none⟩]
    else []
  else []

def checkRDSSnapshots (region : String) (thresholdDays : Int) (nowMs : Int)
    (snapshots : List DBSnapshot) (existingDbIds : List String) :
    List UnusedResource :=
  snapshots.flatMap (classifyRDSSnapshot region thresholdDays nowMs existingDbIds)

/-! checkRDSClusterSnapshots. -/

structure DBClusterSnapshot where
  dbClusterSnapshotIdentifier : Option String
  dbClusterIdentifier : Option String
  snapshotCreateTime : Option Int
  snapshotType : Option String
  status : Option String
deriving Repr, DecidableEq

/-- Orphan test of checkRDSClusterSnapshots. -/
def rdsClusterSnapshotOrphaned (existingClusterIds : List String) (clusterId : String) : Prop :=
  clusterId ≠ "" ∧ clusterId ∉ existingClusterIds

instance (ids : List String) (v : String) :
    Decidable (rdsClusterSnapshotOrphaned ids v) := by
  unfold rdsClusterSnapshotOrphaned
  infer_instance

def classifyRDSClusterSnapshot (region : String) (thresholdDays : Int) (nowMs : Int)
    (existingClusterIds : List String) (s : DBClusterSnapshot) : List UnusedResource :=
  if s.status = some "available" then
    let snapshotId := strOr s.dbClusterSnapshotIdentifier ""
    let clusterId := strOr s.dbClusterIdentifier ""
    let snapshotType := strOr s.snapshotType "manual"
    let ageMs := snapshotAgeMs nowMs s.snapshotCreateTime
    let ageDays := Int.fdiv ageMs msPerDay
    if rdsClusterSnapshotOrphaned existingClusterIds clusterId then
      [⟨"RDS Cluster Snapshot", snapshotId, snapshotId, region, 0,
        "Orphaned " ++ snapshotType ++ " snapshot (cluster " ++ clusterId ++ " deleted)",
        none, none⟩]
    else if thresholdDays * msPerDay < ageMs then
      [⟨"RDS Cluster Snapshot", snapshotId, snapshotId, region, 0,
        "Old " ++ snapshotType ++ " snapshot (" ++ toString ageDays ++ " days)",
        none, none⟩]
    else []
  else []

def checkRDSClusterSnapshots (region : String) (thresholdDays : Int) (nowMs : Int)
    (snapshots : List DBClusterSnapshot) (existingClusterIds : List String) :
    List UnusedResource :=
  snapshots.flatMap (classifyRDSClusterSnapshot region thresholdDays nowMs existingClusterIds)

/-! checkEFSBackups. -/

structure RecoveryPoint where
  recoveryPointArn : Option String
  resourceArn : Option String
  creationDate : Option Int
  status : Option String
deriving Repr, DecidableEq

structure BackupVault where
  backupVaultName : Option String
  recoveryPoints : List RecoveryPoint
deriving Repr, DecidableEq

/-- Orphan test of checkEFSBackups: non-empty extracted file-system id
absent from the current file-system inventory. -/
def efsBackupOrphaned (existingEfsIds : List String) (efsId : String) : Prop :=
  efsId ≠ "" ∧ efsId ∉ existingEfsIds

instance (ids : List String) (v : String) : Decidable (efsBackupOrphaned ids v) := by
  unfold efsBackupOrphaned
  infer_instance

def classifyEFSRecoveryPoint (region : String) (thresholdDays : Int) (nowMs : Int)
    (existingEfsIds : List String) (rp : RecoveryPoint) : List UnusedResource :=
  if rp.status = some "COMPLETED" then
    let recoveryPointArn := strOr rp.recoveryPointArn ""
    let resourceArn := strOr rp.resourceArn ""
    let efsId := extractEfsId resourceArn
    let ageMs := snapshotAgeMs nowMs rp.creationDate
    let ageDays := Int.fdiv ageMs msPerDay
    let shortId := strOr ((splitOnChar ':' recoveryPointArn).getLast?) recoveryPointArn
    if efsBackupOrphaned existingEfsIds efsId then
      [⟨"EFS Backup", shortId, "Backup of " ++ efsId, region, 0,
        "Orphaned (EFS " ++ efsId ++ " deleted)", none, none⟩]
    else if thresholdDays * msPerDay < ageMs then
      [⟨"EFS Backup", shortId,
        "Backup of " ++ (if efsId = "" then "unknown" else efsId), region, 0,
        "Old backup (" ++ toString ageDays ++ " days)", none, none⟩]
    else []
  else []

def checkEFSBackups (region : String) (thresholdDays : Int) (nowMs : Int)
    (existingEfsIds : List String) (vaults : List BackupVault) : List UnusedResource :=
  vaults.flatMap
    (fun v => v.recoveryPoints.flatMap
      (classifyEFSRecoveryPoint region thresholdDays nowMs existingEfsIds))

/-! checkRDSInstances. -/

structure DBInstance where
  dbInstanceIdentifier : Option String
  dbInstanceStatus : Option String
deriving Repr, DecidableEq

def rdsConnections (metric : MetricFn) (instanceId : String) : ℚ :=
  metric "AWS/RDS" "DatabaseConnections" [("DBInstanceIdentifier", instanceId)]

def rdsCpu (metric : MetricFn) (instanceId : String) : ℚ :=
  metric "AWS/RDS" "CPUUtilization" [("DBInstanceIdentifier", instanceId)]

def classifyRDSInstance (region : String) (metric : MetricFn) (inst : DBInstance) :
    List UnusedResource :=
  if inst.dbInstanceStatus = some "available" then
    let instanceId := strOr inst.dbInstanceIdentifier ""
    let connections := rdsConnections metric instanceId
    if 0 ≤ connections ∧ connections < CONNECTIONS_THRESHOLD then
      [⟨"Amazon RDS", instanceId, instanceId, region, 0,
        "No connections (" ++ toFixedDigits 0 connections ++ " avg)", none, none⟩]
    else
      let cpuAvg := rdsCpu metric instanceId
      if 0 ≤ cpuAvg ∧ cpuAvg < CPU_THRESHOLD then
        [⟨"Amazon RDS", instanceId, instanceId, region, 0,
          "Low CPU (" ++ toFixedDigits 1 cpuAvg ++ "% avg)", none, none⟩]
      else []
  else []

def checkRDSInstances (region : String) (metric : MetricFn)
    (instances : List DBInstance) : List UnusedResource :=
  instances.flatMap (classifyRDSInstance region metric)

/-! checkLoadBalancers. -/

structure LoadBalancer where
  loadBalancerArn : Option String
  loadBalancerName : Option String
  lbType : Option String
deriving Repr, DecidableEq

/-- CloudWatch dimension value of a load balancer: the last three
slash-separated components of its ARN. -/
def lbDimension (lbArn : String) : String :=
  let arnParts := splitOnChar '/' lbArn
  joinSep "/" (arnParts.drop (arnParts.length - 3))

def lbNamespace (lb : LoadBalancer) : String :=
  if lb.lbType = some "network" then "AWS/NetworkELB" else "AWS/ApplicationELB"

def lbMetricName (lb : LoadBalancer) : String :=
  if lb.lbType = some "network" then "ActiveFlowCount" else "RequestCount"

def lbTraffic (metric : MetricFn) (lb : LoadBalancer) : ℚ :=
  metric (lbNamespace lb) (lbMetricName lb)
    [("LoadBalancer", lbDimension (strOr lb.loadBalancerArn ""))]

def classifyLoadBalancer (region : String) (metric : MetricFn) (lb : LoadBalancer) :
    List UnusedResource :=
  let lbArn := strOr lb.loadBalancerArn ""
  let lbName := strOr lb.loadBalancerName ""
  let requestCount := lbTraffic metric lb
  if 0 ≤ requestCount ∧ requestCount = 0 then
    [⟨"Elastic Load Balancing", lbArn, lbName, region, 0, "No traffic", none, none⟩]
  else []

def checkLoadBalancers (region : String) (metric : MetricFn)
    (lbs : List LoadBalancer) : List UnusedResource :=
  lbs.flatMap (classifyLoadBalancer region metric)

/-! checkElasticIPs. -/

structure ElasticIP where
  allocationId : Option String
  publicIp : Option String
  instanceId : Option String
  networkInterfaceId : Option String
deriving Repr, DecidableEq

def classifyElasticIP (region : String) (address : ElasticIP) : List UnusedResource :=
  if strOr address.instanceId "" = "" ∧ strOr address.networkInterfaceId "" = "" then
    [⟨"Amazon EC2 (EIP)", strOr address.allocationId (strOr address.publicIp ""),
      strOr address.publicIp "", region, 0, "Unattached Elastic IP", none, none⟩]
  else []

def checkElasticIPs (region : String) (addresses : List ElasticIP) : List UnusedResource :=
  addresses.flatMap (classifyElasticIP region)

/-! checkNATGateways.  Only gateways in the available state are listed
(the inventory request filters on state), so the input list carries the
already-filtered gateways. -/

structure NATGateway where
  natGatewayId : Option String
  tags : List Tag
deriving Repr, DecidableEq

def natBytesOut (metric : MetricFn) (natGwId : String) : ℚ :=
  metric "AWS/NATGateway" "BytesOutToDestination" [("NatGatewayId", natGwId)]

def classifyNATGateway (region : String) (metric : MetricFn) (natGw : NATGateway) :
    List UnusedResource :=
  let natGwId := strOr natGw.natGatewayId ""
  let natGwName := strOr (nameTagValue natGw.tags) natGwId
  let bytesOut := natBytesOut metric natGwId
  if 0 ≤ bytesOut ∧ bytesOut = 0 then
    [⟨"NAT Gateway", natGwId, natGwName, region, 0, "No outbound traffic", none, none⟩]
  else []

def checkNATGateways (region : String) (metric : MetricFn)
    (natGws : List NATGateway) : List UnusedResource :=
  natGws.flatMap (classifyNATGateway region metric)

/-! checkEFSFileSystems. -/

structure EFSFileSystem where
  fileSystemId : Option String
  name : Option String
deriving Repr, DecidableEq

def efsConnections (metric : MetricFn) (fsId : String) : ℚ :=
  metric "AWS/EFS" "ClientConnections" [("FileSystemId", fsId)]

def classifyEFSFileSystem (region : String) (metric : MetricFn) (fs : EFSFileSystem) :
    List UnusedResource :=
  let fsId := strOr fs.fileSystemId ""
  let fsName := strOr fs.name fsId
  let connections := efsConnections metric fsId
  if 0 ≤ connections ∧ connections = 0 then
    [⟨"Amazon EFS", fsId, fsName, region, 0, "No client connections", none, none⟩]
  else []

def checkEFSFileSystems (region : String) (metric : MetricFn)
    (fileSystems : List EFSFileSystem) : List UnusedResource :=
  fileSystems.flatMap (classifyEFSFileSystem region metric)

/-! checkEKSClusters.  The source lists cluster names and describes
each; the description is carried with the listed name. -/

structure EKSCluster where
  name : String
  status : Option String
  arn : Option String
deriving Repr, DecidableEq

def eksNodeCount (metric : MetricFn) (clusterName : String) : ℚ :=
  metric "ContainerInsights" "cluster_node_count" [("ClusterName", clusterName)]

def eksCpu (metric : MetricFn) (clusterName : String) : ℚ :=
  metric "ContainerInsights" "cluster_cpu_utilization" [("ClusterName", clusterName)]

def classifyEKSCluster (region : String) (metric : MetricFn) (cluster : EKSCluster) :
    List UnusedResource :=
  if cluster.status = some "ACTIVE" then
    let nodeCount := eksNodeCount metric cluster.name
    if 0 ≤ nodeCount ∧ nodeCount = 0 then
      [⟨"Amazon EKS", strOr cluster.arn cluster.name, cluster.name, region, 0,
        "No nodes in cluster", none, none⟩]
    else
      let cpuAvg := eksCpu metric cluster.name
      if 0 ≤ cpuAvg ∧ cpuAvg < CPU_THRESHOLD then
        [⟨"Amazon EKS", strOr cluster.arn cluster.name, cluster.name, region, 0,
          "Low CPU (" ++ toFixedDigits 1 cpuAvg ++ "% avg)", none, none⟩]
      else []
  else []

def checkEKSClusters (region : String) (metric : MetricFn)
    (clusters : List EKSCluster) : List UnusedResource :=
  clusters.flatMap (classifyEKSCluster region metric)

/-! checkECSClusters.  For a cluster with services, the source
describes at most the first ten listed service ARNs (slice(0, 10)) and
classifies only the described services.  The DescribeServices backend
is modelled as a map from a service ARN to its description. -/

structure ECSService where
  serviceArn : Option String
  serviceName : Option String
  runningCount : Option Int
  desiredCount : Option Int
deriving Repr, DecidableEq

def ecsCpu (metric : MetricFn) (clusterName serviceName : String) : ℚ :=
  metric "AWS/ECS" "CPUUtilization"
    [("ClusterName", clusterName), ("ServiceName", serviceName)]

def classifyECSService (region : String) (metric : MetricFn) (clusterName : String)
    (service : ECSService) : List UnusedResource :=
  if service.runningCount = some 0 ∧ service.desiredCount = some 0 then
    [⟨"Amazon ECS", strOr service.serviceArn "", strOr service.serviceName "",
      region, 0, "No running tasks", none, none⟩]
  else
    match service.runningCount with
    | some n =>
      if 0 < n then
        let cpuAvg := ecsCpu metric clusterName (strOr service.serviceName "")
        if 0 ≤ cpuAvg ∧ cpuAvg < CPU_THRESHOLD then
          [⟨"Amazon ECS", strOr service.serviceArn "", strOr service.serviceName "",
            region, 0, "Low CPU (" ++ toFixedDigits 1 cpuAvg ++ "% avg)", none, none⟩]
        else []
      else []
    | none => []

def classifyECSCluster (region : String) (metric : MetricFn) (clusterArn : String)
    (serviceArns : List String) (describeService : String → ECSService) :
    List UnusedResource :=
  let clusterName := strOr ((splitOnChar '/' clusterArn).getLast?) ""
  if serviceArns.length = 0 then
    [⟨"Amazon ECS", clusterArn, clusterName, region, 0, "No services in cluster",
      none, none⟩]
  else
    ((serviceArns.take 10).map describeService).flatMap
      (classifyECSService region metric clusterName)

def checkECSClusters (region : String) (metric : MetricFn)
    (clusterArns : List String) (listServices : String → List String)
    (describeService : String → ECSService) : List UnusedResource :=
  clusterArns.flatMap
    (fun arn => classifyECSCluster region metric arn (listServices arn) describeService)

/-! checkElastiCacheClusters. -/

structure CacheCluster where
  cacheClusterId : Option String
  cacheClusterStatus : Option String
deriving Repr, DecidableEq

def cacheConnections (metric : MetricFn) (clusterId : String) : ℚ :=
  metric "AWS/ElastiCache" "CurrConnections" [("CacheClusterId", clusterId)]

def cacheCpu (metric : MetricFn) (clusterId : String) : ℚ :=
  metric "AWS/ElastiCache" "CPUUtilization" [("CacheClusterId", clusterId)]

def classifyCacheCluster (region : String) (metric : MetricFn) (cluster : CacheCluster) :
    List UnusedResource :=
  if cluster.cacheClusterStatus = some "available" then
    let clusterId := strOr cluster.cacheClusterId ""
    let connections := cacheConnections metric clusterId
    if 0 ≤ connections ∧ connections < CONNECTIONS_THRESHOLD then
      [⟨"Amazon ElastiCache", clusterId, clusterId, region, 0,
        "No connections (" ++ toFixedDigits 0 connections ++ " avg)", none, none⟩]
    else
      let cpuAvg := cacheCpu metric clusterId
      if 0 ≤ cpuAvg ∧ cpuAvg < CPU_THRESHOLD then
        [⟨"Amazon ElastiCache", clusterId, clusterId, region, 0,
          "Low CPU (" ++ toFixedDigits 1 cpuAvg ++ "% avg)", none, none⟩]
      else []
  else []

def checkElastiCacheClusters (region : String) (metric : MetricFn)
    (clusters : List CacheCluster) : List UnusedResource :=
  clusters.flatMap (classifyCacheCluster region metric)

/-! checkRedshiftClusters. -/

structure RedshiftCluster where
  clusterIdentifier : Option String
  clusterStatus : Option String
deriving Repr, DecidableEq

def redshiftConnections (metric : MetricFn) (clusterId : String) : ℚ :=
  metric "AWS/Redshift" "DatabaseConnections" [("ClusterIdentifier", clusterId)]

def redshiftCpu (metric : MetricFn) (clusterId : String) : ℚ :=
  metric "AWS/Redshift" "CPUUtilization" [("ClusterIdentifier", clusterId)]

def classifyRedshiftCluster (region : String) (metric : MetricFn)
    (cluster : RedshiftCluster) : List UnusedResource :=
  if cluster.clusterStatus = some "available" then
    let clusterId := strOr cluster.clusterIdentifier ""
    let connections := redshiftConnections metric clusterId
    if 0 ≤ connections ∧ connections < CONNECTIONS_THRESHOLD then
      [⟨"Amazon Redshift", clusterId, clusterId, region, 0,
        "No connections (" ++ toFixedDigits 0 connections ++ " avg)", none, none⟩]
    else
      let cpuAvg := redshiftCpu metric clusterId
      if 0 ≤ cpuAvg ∧ cpuAvg < CPU_THRESHOLD then
        [⟨"Amazon Redshift", clusterId, clusterId, region, 0,
          "Low CPU (" ++ toFixedDigits 1 cpuAvg ++ "% avg)", none, none⟩]
      else []
  else []

def checkRedshiftClusters (region : String) (metric : MetricFn)
    (clusters : List RedshiftCluster) : List UnusedResource :=
  clusters.flatMap (classifyRedshiftCluster region metric)

/-! checkOpenSearchDomains.  The source lists domain names and
describes each; the description is carried with the listed name. -/

structure OpenSearchDomain where
  domainName : Option String
  created : Option Bool
  arn : Option String
  domainId : Option String
deriving Repr, DecidableEq

def osClientId (domain : OpenSearchDomain) : String :=
  match domain.domainId with
  | some d => strOr ((splitOnChar '/' d).headD "") ""
  | none => ""

def osSearchRate (metric : MetricFn) (domain : OpenSearchDomain)
    (domainName : String) : ℚ :=
  metric "AWS/ES" "SearchRate"
    [("DomainName", domainName), ("ClientId", osClientId domain)]

def osCpu (metric : MetricFn) (domain : OpenSearchDomain) (domainName : String) : ℚ :=
  metric "AWS/ES" "CPUUtilization"
    [("DomainName", domainName), ("ClientId", osClientId domain)]

def classifyOpenSearchDomain (region : String) (metric : MetricFn)
    (domain : OpenSearchDomain) : List UnusedResource :=
  if domain.created = some true then
    let domainName := strOr domain.domainName ""
    let searchRate := osSearchRate metric domain domainName
    if 0 ≤ searchRate ∧ searchRate = 0 then
      [⟨"Amazon OpenSearch", strOr domain.arn domainName, domainName, region, 0,
        "No search requests", none, none⟩]
    else
      let cpuAvg := osCpu metric domain domainName
      if 0 ≤ cpuAvg ∧ cpuAvg < CPU_THRESHOLD then
        [⟨"Amazon OpenSearch", strOr domain.arn domainName, domainName, region, 0,
          "Low CPU (" ++ toFixedDigits 1 cpuAvg ++ "% avg)", none, none⟩]
      else []
  else []

def checkOpenSearchDomains (region : String) (metric : MetricFn)
    (domains : List OpenSearchDomain) : List UnusedResource :=
  domains.flatMap (classifyOpenSearchDomain region metric)

/-! AccountScanner: scanAccountRegions.  The region loop advances an
index by the batch size and slices the region list, so the visited
batches are the ceil(length / size) successive slices.  Within a batch
the regions run in parallel and each region produces a partial result
and an error count; the results are concatenated in batch order and
the error counts added.  After all batches, every resource is tagged
with the account identity. -/

/-- Batches visited by the loop: for i = 0, size, 2*size, ... the slice
regions.slice(i, i + size). -/
def regionBatches (batchSize : Nat) (regions : List String) : List (List String) :=
  (List.range ((regions.length + batchSize - 1) / batchSize)).map
    (fun k => (regions.drop (k * batchSize)).take batchSize)

/-- Account-tagging post-pass applied to the accumulated resources. -/
def tagResources (accountId accountName : String) (rs : List UnusedResource) :
    List UnusedResource :=
  rs.map (fun r => { r with accountId := some accountId, accountName := some accountName })

/-- Merge one ScanOutcome into an accumulator: resources accumulate,
errors add. -/
def mergeOutcome (acc o : ScanOutcome) : ScanOutcome :=
  ⟨acc.resources ++ o.resources, acc.errors + o.errors⟩

/-- scanAccountRegions over the per-region scan environment: the fixed
region list is processed in batches of four, results merged in order,
and the total tagged with the account identity. -/
def scanAccountRegions (accountId accountName : String)
    (regionScan : String → ScanOutcome) : ScanOutcome :=
  let folded := (regionBatches 4 AWS_REGIONS).foldl
    (fun acc batch => (batch.map regionScan).foldl mergeOutcome acc) ⟨[], 0⟩
  ⟨tagResources accountId accountName folded.resources, folded.errors⟩

/-! ScanOrchestrator: getConfiguredAccounts, shouldUseOrganizationMode
and detectUnusedResources.  The configured account map preserves
insertion order and is keyed by account id; it is modelled as an
association list with the map-set overwrite semantics. -/

/-- Map.set on an insertion-ordered association list. -/
def mapSet (m : List (String × String)) (k v : String) : List (String × String) :=
  if m.any (fun p => p.1 = k) then m.map (fun p => if p.1 = k then (k, v) else p)
  else m ++ [(k, v)]

/-- getConfiguredAccounts over the CHILD_ACCOUNTS environment string:
null for a blank value, otherwise the map of trimmed non-empty
comma-separated ids (each mapped to itself as its name), null again if
no id survives. -/
def getConfiguredAccounts (raw : String) : Option (List (String × String)) :=
  if trimStr raw = "" then none
  else
    let accounts := (splitOnChar ',' raw).foldl
      (fun acc entry =>
        let id := trimStr entry
        if id = "" then acc else mapSet acc id id) []
    if 0 < accounts.length then some accounts else none

/-- shouldUseOrganizationMode: a non-empty configured account map
exists. -/
def shouldUseOrganizationMode (raw : String) : Bool :=
  match getConfiguredAccounts raw with
  | none => false
  | some accounts => 0 < accounts.length

/-- One iteration of the sequential account loop of
detectUnusedResources: the parent account is scanned with ambient
credentials; any other account is scanned with assumed-role
credentials, or skipped with one more error when assumption fails. -/
def orgScanStep (parentAccountId : String)
    (assumeFor : String → Option AwsCredentials)
    (scanAccount : String → String → Option AwsCredentials → ScanOutcome)
    (acc : ScanOutcome) (entry : String × String) : ScanOutcome :=
  if entry.1 = parentAccountId then
    mergeOutcome acc (scanAccount entry.1 entry.2 none)
  else
    match assumeFor entry.1 with
    | none => ⟨acc.resources, acc.errors + 1⟩
    | some credentials => mergeOutcome acc (scanAccount entry.1 entry.2 (some credentials))

/-- The sequential account loop of detectUnusedResources. -/
def orgScanLoop (parentAccountId : String)
    (assumeFor : String → Option AwsCredentials)
    (scanAccount : String → String → Option AwsCredentials → ScanOutcome)
    (accounts : List (String × String)) : ScanOutcome :=
  accounts.foldl (orgScanStep parentAccountId assumeFor scanAccount) ⟨[], 0⟩

/-- detectUnusedResources over the orchestration environment: the
resolved caller account id, the organization-mode flag, the configured
account map, the per-account role-assumption outcome, and the
per-account scan.  In organization mode with a non-empty account map
the accounts are scanned sequentially; otherwise the caller account
alone is scanned with ambient credentials. -/
def detectUnusedResources (parentAccountId : String) (useOrgMode : Bool)
    (orgAccounts : Option (List (String × String)))
    (assumeFor : String → Option AwsCredentials)
    (scanAccount : String → String → Option AwsCredentials → ScanOutcome) : ScanOutcome :=
  if useOrgMode then
    match orgAccounts with
    | some accounts =>
      if 0 < accounts.length then
        orgScanLoop parentAccountId assumeFor scanAccount accounts
      else scanAccount parentAccountId parentAccountId none
    | none => scanAccount parentAccountId parentAccountId none
  else scanAccount parentAccountId parentAccountId none

/-! Probe environments used to observe which accounts and regions a
scan visits: each scan call returns one marker resource carrying its
arguments. -/

/-- Per-account probe: one marker resource named by the account. -/
def probeScanAccount (accountId accountName : String)
    (credentials : Option AwsCredentials) : ScanOutcome :=
  ⟨[⟨"probe", accountId, accountName,
     (match credentials with | some _ => "assumed" | none => "ambient"),
     0, "scan", some accountId, some accountName⟩], 0⟩

/-- Per-region probe: one marker resource named by the region. -/
def probeRegionScan (region : String) : ScanOutcome :=
  ⟨[⟨"probe", region, region, region, 0, "scan", none, none⟩], 0⟩

/-- Metric environment in which every query is inconclusive: each call
returns the no-data sentinel -2. -/
def negMetric : MetricFn := fun _ _ _ => -2

/-! Helper lemmas. -/

lemma mergeOutcome_init (o : ScanOutcome) : mergeOutcome ⟨[], 0⟩ o = o := by
  simp [mergeOutcome]

lemma mergeOutcome_assoc (a b c : ScanOutcome) :
    mergeOutcome (mergeOutcome a b) c = mergeOutcome a (mergeOutcome b c) := by
  simp [mergeOutcome, List.append_assoc, Nat.add_assoc]

lemma orgScanStep_merge (parent : String) (assumeFor : String → Option AwsCredentials)
    (scanAccount : String → String → Option AwsCredentials → ScanOutcome)
    (acc : ScanOutcome) (entry : String × String) :
    orgScanStep parent assumeFor scanAccount acc entry =
      mergeOutcome acc (orgScanStep parent assumeFor scanAccount ⟨[], 0⟩ entry) := by
  unfold orgScanStep
  by_cases h : entry.1 = parent
  · simp [h, mergeOutcome_init]
  · simp only [h, if_neg, reduceIte]
    cases ha : assumeFor entry.1 with
    | none => simp [mergeOutcome]
    | some c => simp [mergeOutcome_init]

lemma orgScanLoop_shift (parent : String) (assumeFor : String → Option AwsCredentials)
    (scanAccount : String → String → Option AwsCredentials → ScanOutcome)
    (accounts : List (String × String)) (acc : ScanOutcome) :
    accounts.foldl (orgScanStep parent assumeFor scanAccount) acc =
      mergeOutcome acc (orgScanLoop parent assumeFor scanAccount accounts) := by
  induction accounts generalizing acc with
  | nil => simp [orgScanLoop, mergeOutcome]
  | cons x xs ih =>
    simp only [List.foldl_cons, orgScanLoop]
    rw [ih, ih (orgScanStep parent assumeFor scanAccount ⟨[], 0⟩ x),
      orgScanStep_merge parent assumeFor scanAccount acc x, mergeOutcome_assoc]

lemma orgScanLoop_cons (parent : String) (assumeFor : String → Option AwsCredentials)
    (scanAccount : String → String → Option AwsCredentials → ScanOutcome)
    (x : String × String) (xs : List (String × String)) :
    orgScanLoop parent assumeFor scanAccount (x :: xs) =
      mergeOutcome (orgScanStep parent assumeFor scanAccount ⟨[], 0⟩ x)
        (orgScanLoop parent assumeFor scanAccount xs) := by
  unfold orgScanLoop
  rw [List.foldl_cons, orgScanLoop_shift, orgScanStep_merge, mergeOutcome_init]
  rfl

lemma strOr_some_self (x : String) : strOr (some x) "" = x := by
  unfold strOr
  by_cases h : x = ""
  · simp [h]
  · simp [h]

/-- C7.  When organization mode is requested but the configured account
set is absent (null) or empty, detectUnusedResources performs exactly
the single-account scan: the same call of the account scanner on the
caller account with ambient credentials, hence the same resources and
the same error count. -/
theorem empty_org_config_equals_single_account :
    ∀ (parent : String) (assumeFor : String → Option AwsCredentials)
      (scanAccount : String → String → Option AwsCredentials → ScanOutcome),
      detectUnusedResources parent true none assumeFor scanAccount =
          detectUnusedResources parent false none assumeFor scanAccount ∧
      detectUnusedResources parent true (some []) assumeFor scanAccount =
          detectUnusedResources parent false (some []) assumeFor scanAccount ∧
      detectUnusedResources parent false none assumeFor scanAccount =
          scanAccount parent parent none := by
  intro parent assumeFor scanAccount
  refine ⟨rfl, ?_, rfl⟩
  simp [detectUnusedResources]

/-- C8.  The region loop of scanAccountRegions partitions the fixed
17-region list into 5 sequential batches of sizes 4, 4, 4, 4 and 1;
their concatenation is exactly the region list, which has no
duplicates, so every region is visited exactly once per account, as
the per-region probe scan confirms. -/
theorem region_batching_partition :
    (regionBatches 4 AWS_REGIONS).length = 5 ∧
    (regionBatches 4 AWS_REGIONS).map List.length = [4, 4, 4, 4, 1] ∧
    (regionBatches 4 AWS_REGIONS).flatten = AWS_REGIONS ∧
    AWS_REGIONS.Nodup ∧
    (scanAccountRegions "123456789012" "payer" probeRegionScan).resources.map
      (fun r => r.region) = AWS_REGIONS := by
  refine ⟨by decide, by decide, by decide, by decide, by decide⟩

/-- C5.  The metric gateway is a total function of the backend outcome:
a failed call yields the error sentinel -1, a successful call with no
datapoints yields the no-data sentinel -2, and a successful call with
datapoints yields the aggregate (for the average variant the arithmetic
mean of the per-datapoint averages, for the sum variant their sum);
when the datapoints are non-negative the aggregate is non-negative and
hence distinguishable from both sentinels, so callers can always
branch on the returned number. -/
theorem metric_gateway_tristate :
    (∀ e : String, getCloudWatchMetric (Except.error e) = -1) ∧
    (getCloudWatchMetric (Except.ok []) = -2) ∧
    (∀ dps : List Datapoint, dps ≠ [] →
      getCloudWatchMetric (Except.ok dps) =
        ((dps.map (fun dp => dp.average.getD 0)).sum) / (dps.length : ℚ)) ∧
    (∀ dps : List Datapoint, dps ≠ [] → (∀ dp ∈ dps, 0 ≤ dp.average.getD 0) →
      0 ≤ getCloudWatchMetric (Except.ok dps)) ∧
    (∀ e : String, getCloudWatchSumMetric (Except.error e) = -1) ∧
    (getCloudWatchSumMetric (Except.ok []) = -2) ∧
    (∀ dps : List Datapoint, dps ≠ [] →
      getCloudWatchSumMetric (Except.ok dps) =
        (dps.map (fun dp => dp.sum.getD 0)).sum) := by
  have hfold : ∀ (f : Datapoint → ℚ) (dps : List Datapoint),
      dps.foldl (fun acc dp => acc + f dp) 0 = (dps.map f).sum := by
    intro f dps
    rw [← List.foldl_map, List.sum_eq_foldl]
  refine ⟨fun e => rfl, rfl, ?_, ?_, fun e => rfl, rfl, ?_⟩
  · intro dps h
    simp only [getCloudWatchMetric, List.length_pos.mpr h, if_pos]
    rw [hfold]
  · intro dps h hnn
    simp only [getCloudWatchMetric, List.length_pos.mpr h, if_pos]
    rw [hfold]
    apply div_nonneg
    · exact List.sum_nonneg (by simpa using hnn)
    · exact_mod_cast Nat.zero_le _
  · intro dps h
    simp only [getCloudWatchSumMetric, List.length_pos.mpr h, if_pos]
    rw [hfold]

/-- Witness for C5 at concrete inputs: a failed call, an empty
datapoint list, and the one-datapoint list with average 3 and sum 4. -/
theorem metric_gateway_tristate_witness :
    getCloudWatchMetric (Except.error "throttled") = -1 ∧
    getCloudWatchMetric (Except.ok []) = -2 ∧
    getCloudWatchMetric (Except.ok [⟨some 3, some 4⟩]) =
      (([⟨some 3, some 4⟩] : List Datapoint).map (fun dp => dp.average.getD 0)).sum /
        (([⟨some 3, some 4⟩] : List Datapoint).length : ℚ) ∧
    0 ≤ getCloudWatchMetric (Except.ok [⟨some 3, some 4⟩]) ∧
    getCloudWatchSumMetric (Except.error "throttled") = -1 ∧
    getCloudWatchSumMetric (Except.ok [⟨some 3, some 4⟩]) =
      (([⟨some 3, some 4⟩] : List Datapoint).map (fun dp => dp.sum.getD 0)).sum :=
  ⟨metric_gateway_tristate.1 "throttled",
   metric_gateway_tristate.2.1,
   metric_gateway_tristate.2.2.1 [⟨some 3, some 4⟩] (by decide),
   metric_gateway_tristate.2.2.2.1 [⟨some 3, some 4⟩] (by decide) (by decide),
   metric_gateway_tristate.2.2.2.2.1 "throttled",
   metric_gateway_tristate.2.2.2.2.2.2 [⟨some 3, some 4⟩] (by decide)⟩

/-- C6.  assumeRole maps every failed or credential-less STS outcome to
null instead of raising, and in the sequential account loop of
detectUnusedResources an account whose role assumption fails is
skipped: it contributes no resources, the error tally grows by exactly
one for it, and the accounts after it are still scanned with their own
outcomes merged in; the loop structure contains no second attempt for
the failed account. -/
theorem failed_assume_role_skips_account :
    (∀ e : String, assumeRole (Except.error e) = none) ∧
    (assumeRole (Except.ok none) = none) ∧
    (∀ c : StsCredentials, strOr c.accessKeyId "" = "" →
      assumeRole (Except.ok (some c)) = none) ∧
    (∀ c : StsCredentials, strOr c.secretAccessKey "" = "" →
      assumeRole (Except.ok (some c)) = none) ∧
    (∀ (parent : String) (assumeFor : String → Option AwsCredentials)
       (scanAccount : String → String → Option AwsCredentials → ScanOutcome)
       (pre post : List (String × String)) (a nm : String),
      a ≠ parent → assumeFor a = none →
      detectUnusedResources parent true (some (pre ++ (a, nm) :: post))
          assumeFor scanAccount =
        ⟨(orgScanLoop parent assumeFor scanAccount pre).resources ++
           (orgScanLoop parent assumeFor scanAccount post).resources,
         (orgScanLoop parent assumeFor scanAccount pre).errors + 1 +
           (orgScanLoop parent assumeFor scanAccount post).errors⟩) := by
  refine ⟨fun e => rfl, rfl, ?_, ?_, ?_⟩
  · intro c h
    simp [assumeRole, h]
  · intro c h
    simp [assumeRole, h]
  · intro parent assumeFor scanAccount pre post a nm hne hnone
    have hlen : 0 < (pre ++ (a, nm) :: post).length := by
      simp
    have hskip : ∀ acc : ScanOutcome,
        orgScanStep parent assumeFor scanAccount acc (a, nm) =
          ⟨acc.resources, acc.errors + 1⟩ := by
      intro acc
      unfold orgScanStep
      simp [hne, hnone]
    simp only [detectUnusedResources, if_pos, hlen, reduceIte]
    unfold orgScanLoop
    rw [List.foldl_append, List.foldl_cons, hskip, orgScanLoop_shift]
    simp [mergeOutcome, orgScanLoop, Nat.add_assoc]

/-- Witness for C6: the child account 222222222222 fails role
assumption in a two-account configuration whose second account is still
scanned. -/
theorem failed_assume_role_skips_account_witness :
    assumeRole (Except.error "AccessDenied") = none ∧
    assumeRole (Except.ok (some ⟨none, some "SK", none⟩)) = none ∧
    detectUnusedResources "111111111111" true
        (some ([] ++ ("222222222222", "dev") :: [("333333333333", "prod")]))
        (fun _ => none) probeScanAccount =
      ⟨(orgScanLoop "111111111111" (fun _ => none) probeScanAccount []).resources ++
         (orgScanLoop "111111111111" (fun _ => none) probeScanAccount
           [("333333333333", "prod")]).resources,
       (orgScanLoop "111111111111" (fun _ => none) probeScanAccount []).errors + 1 +
         (orgScanLoop "111111111111" (fun _ => none) probeScanAccount
           [("333333333333", "prod")]).errors⟩ :=
  ⟨failed_assume_role_skips_account.1 "AccessDenied",
   failed_assume_role_skips_account.2.2.1 ⟨none, some "SK", none⟩ (by decide),
   failed_assume_role_skips_account.2.2.2.2 "111111111111" (fun _ => none)
     probeScanAccount [] [("333333333333", "prod")] "222222222222" "dev"
     (by decide) rfl⟩

/-- Counterexample to C2.  The configured account map parsed from the
value 222222222222 is non-empty and omits the caller account
111111111111, yet the organization-mode scan visits exactly the
configured account: the caller account is never scanned. -/
theorem parent_account_not_implicitly_scanned_cex :
    getConfiguredAccounts "222222222222" =
      some [("222222222222", "222222222222")] ∧
    (detectUnusedResources "111111111111" true (getConfiguredAccounts "222222222222")
        (fun _ => some ⟨"AKIA", "SECRET", none⟩) probeScanAccount).resources.map
      (fun r => r.resourceId) = ["222222222222"] := by
  refine ⟨by decide, by decide⟩

/-- C2 as amended.  In organization mode the scanned accounts are
exactly the configured ones that are either the caller account (scanned
with ambient credentials) or assume their role successfully; the caller
account is not implicitly added when absent from the configuration. -/
theorem org_mode_scans_exactly_configured_accounts :
    ∀ (parent : String) (assumeFor : String → Option AwsCredentials)
      (accounts : List (String × String)),
      (orgScanLoop parent assumeFor probeScanAccount accounts).resources.map
          (fun r => r.resourceId) =
        (accounts.filter (fun p => p.1 == parent || (assumeFor p.1).isSome)).map
          (fun p => p.1) := by
  intro parent assumeFor accounts
  induction accounts with
  | nil => rfl
  | cons x xs ih =>
    rw [orgScanLoop_cons]
    by_cases h : x.1 = parent
    · simp [mergeOutcome, orgScanStep, h, probeScanAccount, List.filter_cons, ih]
    · cases ha : assumeFor x.1 with
      | none =>
        simp [mergeOutcome, orgScanStep, h, ha, List.filter_cons, ih]
      | some c =>
        simp [mergeOutcome, orgScanStep, h, ha, probeScanAccount, List.filter_cons, ih]

/-- Counterexample to C3.  An EBS snapshot whose state is pending (not
completed) is still evaluated by checkEBSSnapshots and, being orphaned,
contributes an UnusedResource: the EBS family applies no state filter. -/
theorem ebs_snapshot_state_not_filtered_cex :
    (⟨some "snap-1", [], some "vol-123", some 0, some "pending"⟩ : EBSSnapshot).state ≠
      some "completed" ∧
    checkEBSSnapshots "us-east-1" 90 0
        [⟨some "snap-1", [], some "vol-123", some 0, some "pending"⟩] [] =
      [⟨"EBS Snapshot", "snap-1", "snap-1", "us-east-1", 0,
        "Orphaned (volume vol-123 deleted)", none, none⟩] := by
  refine ⟨by decide, by decide⟩

/-- C3 as amended.  Only the two RDS snapshot families are filtered on
snapshot state (status available); a snapshot in any other status
contributes nothing there, while the EBS snapshot checker classifies
independently of the snapshot state. -/
theorem snapshot_state_filtering_amended :
    (∀ (region : String) (th now : Int) (ids : List String) (s : DBSnapshot),
      s.status ≠ some "available" →
      classifyRDSSnapshot region th now ids s = []) ∧
    (∀ (region : String) (th now : Int) (ids : List String) (s : DBClusterSnapshot),
      s.status ≠ some "available" →
      classifyRDSClusterSnapshot region th now ids s = []) ∧
    (∀ (region : String) (th now : Int) (ids : List String) (s : EBSSnapshot)
       (st : Option String),
      classifyEBSSnapshot region th now ids
          ⟨s.snapshotId, s.tags, s.volumeId, s.startTime, st⟩ =
        classifyEBSSnapshot region th now ids s) := by
  refine ⟨?_, ?_, ?_⟩
  · intro region th now ids s h
    simp [classifyRDSSnapshot, h]
  · intro region th now ids s h
    simp [classifyRDSClusterSnapshot, h]
  · intro region th now ids s st
    rfl

/-- Witness for C3 as amended: a creating-status RDS snapshot and a
creating-status cluster snapshot are skipped. -/
theorem snapshot_state_filtering_amended_witness :
    classifyRDSSnapshot "us-east-1" 90 0 []
        ⟨some "rds-snap", some "db-1", some 0, some "manual", some "creating"⟩ = [] ∧
    classifyRDSClusterSnapshot "us-east-1" 90 0 []
        ⟨some "aurora-snap", some "cluster-1", some 0, some "manual", some "creating"⟩ = [] :=
  ⟨snapshot_state_filtering_amended.1 "us-east-1" 90 0 []
     ⟨some "rds-snap", some "db-1", some 0, some "manual", some "creating"⟩ (by decide),
   snapshot_state_filtering_amended.2.1 "us-east-1" 90 0 []
     ⟨some "aurora-snap", some "cluster-1", some 0, some "manual", some "creating"⟩
     (by decide)⟩

/-- Counterexample to C4.  An RDS snapshot in status creating that is
both orphaned (source db-1 absent from the empty inventory) and old
(age 864000000000 ms, far above the 90-day threshold) produces no
UnusedResource at all, not exactly one. -/
theorem orphan_old_unavailable_rds_snapshot_cex :
    rdsSnapshotOrphaned [] "db-1" ∧
    (90 : Int) * msPerDay < snapshotAgeMs 864000000000 (some 0) ∧
    checkRDSSnapshots "us-east-1" 90 864000000000
        [⟨some "rds-snap", some "db-1", some 0, some "manual", some "creating"⟩] [] = [] := by
  refine ⟨by decide, by decide, by decide⟩

/-- C4 as amended.  For every snapshot that the checker evaluates (any
EBS snapshot; RDS instance and cluster snapshots in status available),
when both the orphan condition and the age condition hold the checker
emits exactly the single orphaned entry, never an old entry as well. -/
theorem orphan_priority_single_emission :
    (∀ (region : String) (th now : Int) (ids : List String) (s : EBSSnapshot),
      ebsSnapshotOrphaned ids (strOr s.volumeId "") →
      th * msPerDay < snapshotAgeMs now s.startTime →
      classifyEBSSnapshot region th now ids s =
        [⟨"EBS Snapshot", strOr s.snapshotId "",
          strOr (nameTagValue s.tags) (strOr s.snapshotId ""), region, 0,
          "Orphaned (volume " ++ strOr s.volumeId "" ++ " deleted)", none, none⟩]) ∧
    (∀ (region : String) (th now : Int) (ids : List String) (s : DBSnapshot),
      s.status = some "available" →
      rdsSnapshotOrphaned ids (strOr s.dbInstanceIdentifier "") →
      th * msPerDay < snapshotAgeMs now s.snapshotCreateTime →
      classifyRDSSnapshot region th now ids s =
        [⟨"RDS Snapshot", strOr s.dbSnapshotIdentifier "",
          strOr s.dbSnapshotIdentifier "", region, 0,
          "Orphaned " ++ strOr s.snapshotType "manual" ++ " snapshot (DB " ++
            strOr s.dbInstanceIdentifier "" ++ " deleted)", none, none⟩]) ∧
    (∀ (region : String) (th now : Int) (ids : List String) (s : DBClusterSnapshot),
      s.status = some "available" →
      rdsClusterSnapshotOrphaned ids (strOr s.dbClusterIdentifier "") →
      th * msPerDay < snapshotAgeMs now s.snapshotCreateTime →
      classifyRDSClusterSnapshot region th now ids s =
        [⟨"RDS Cluster Snapshot", strOr s.dbClusterSnapshotIdentifier "",
          strOr s.dbClusterSnapshotIdentifier "", region, 0,
          "Orphaned " ++ strOr s.snapshotType "manual" ++ " snapshot (cluster " ++
            strOr s.dbClusterIdentifier "" ++ " deleted)", none, none⟩]) := by
  refine ⟨?_, ?_, ?_⟩
  · intro region th now ids s horph hold
    simp [classifyEBSSnapshot, horph]
  · intro region th now ids s hst horph hold
    simp [classifyRDSSnapshot, hst, horph]
  · intro region th now ids s hst horph hold
    simp [classifyRDSClusterSnapshot, hst, horph]

/-- Witness for C4 as amended: an orphaned-and-old snapshot of each of
the three families yields exactly its orphaned entry. -/
theorem orphan_priority_single_emission_witness :
    classifyEBSSnapshot "us-east-1" 90 864000000000 []
        ⟨some "snap-9", [], some "vol-9", some 0, some "completed"⟩ =
      [⟨"EBS Snapshot", "snap-9", "snap-9", "us-east-1", 0,
        "Orphaned (volume vol-9 deleted)", none, none⟩] ∧
    classifyRDSSnapshot "us-east-1" 90 864000000000 []
        ⟨some "rds-9", some "db-9", some 0, some "manual", some "available"⟩ =
      [⟨"RDS Snapshot", "rds-9", "rds-9", "us-east-1", 0,
        "Orphaned manual snapshot (DB db-9 deleted)", none, none⟩] ∧
    classifyRDSClusterSnapshot "us-east-1" 90 864000000000 []
        ⟨some "aur-9", some "clu-9", some 0, some "manual", some "available"⟩ =
      [⟨"RDS Cluster Snapshot", "aur-9", "aur-9", "us-east-1", 0,
        "Orphaned manual snapshot (cluster clu-9 deleted)", none, none⟩] := by
  refine ⟨?_, ?_, ?_⟩
  · have h := orphan_priority_single_emission.1 "us-east-1" 90 864000000000 []
      ⟨some "snap-9", [], some "vol-9", some 0, some "completed"⟩ (by decide) (by decide)
    simpa using h
  · have h := orphan_priority_single_emission.2.1 "us-east-1" 90 864000000000 []
      ⟨some "rds-9", some "db-9", some 0, some "manual", some "available"⟩
      rfl (by decide) (by decide)
    simpa using h
  · have h := orphan_priority_single_emission.2.2 "us-east-1" 90 864000000000 []
      ⟨some "aur-9", some "clu-9", some 0, some "manual", some "available"⟩
      rfl (by decide) (by decide)
    simpa using h

/-- Counterexample to C10.  With a negative configured age threshold
(the environment value is parsed as an arbitrary number), a completed,
non-orphaned EBS snapshot without a creation timestamp has computed age
0, and 0 exceeds the negative threshold, so it is flagged Old after
all: the claim does not hold for every configured threshold. -/
theorem missing_timestamp_negative_threshold_cex :
    (⟨some "snap-2", [], some "vol-1", none, some "completed"⟩ : EBSSnapshot).startTime =
      none ∧
    checkEBSSnapshots "us-east-1" (-1) 0
        [⟨some "snap-2", [], some "vol-1", none, some "completed"⟩] ["vol-1"] =
      [⟨"EBS Snapshot", "snap-2", "snap-2", "us-east-1", 0, "Old snapshot (0 days)",
        none, none⟩] := by
  refine ⟨rfl, by decide⟩

/-- C10 as amended.  For every non-negative configured age threshold, a
snapshot or backup without a creation timestamp has age 0 and is never
flagged Old: the checker emits nothing for it or exactly its orphaned
entry, and when the orphan condition holds it is still flagged as
orphaned. -/
theorem missing_timestamp_never_old_flagged :
    (∀ (region : String) (th now : Int) (ids : List String) (s : EBSSnapshot),
      0 ≤ th → s.startTime = none →
      classifyEBSSnapshot region th now ids s = [] ∨
      classifyEBSSnapshot region th now ids s =
        [⟨"EBS Snapshot", strOr s.snapshotId "",
          strOr (nameTagValue s.tags) (strOr s.snapshotId ""), region, 0,
          "Orphaned (volume " ++ strOr s.volumeId "" ++ " deleted)", none, none⟩]) ∧
    (∀ (region : String) (th now : Int) (ids : List String) (s : DBSnapshot),
      0 ≤ th → s.snapshotCreateTime = none →
      classifyRDSSnapshot region th now ids s = [] ∨
      classifyRDSSnapshot region th now ids s =
        [⟨"RDS Snapshot", strOr s.dbSnapshotIdentifier "",
          strOr s.dbSnapshotIdentifier "", region, 0,
          "Orphaned " ++ strOr s.snapshotType "manual" ++ " snapshot (DB " ++
            strOr s.dbInstanceIdentifier "" ++ " deleted)", none, none⟩]) ∧
    (∀ (region : String) (th now : Int) (ids : List String) (rp : RecoveryPoint),
      0 ≤ th → rp.creationDate = none →
      classifyEFSRecoveryPoint region th now ids rp = [] ∨
      classifyEFSRecoveryPoint region th now ids rp =
        [⟨"EFS Backup",
          strOr ((splitOnChar ':' (strOr rp.recoveryPointArn "")).getLast?)
            (strOr rp.recoveryPointArn ""),
          "Backup of " ++ extractEfsId (strOr rp.resourceArn ""), region, 0,
          "Orphaned (EFS " ++ extractEfsId (strOr rp.resourceArn "") ++ " deleted)",
          none, none⟩]) ∧
    (∀ (region : String) (th now : Int) (ids : List String) (s : EBSSnapshot),
      s.startTime = none → ebsSnapshotOrphaned ids (strOr s.volumeId "") →
      classifyEBSSnapshot region th now ids s =
        [⟨"EBS Snapshot", strOr s.snapshotId "",
          strOr (nameTagValue s.tags) (strOr s.snapshotId ""), region, 0,
          "Orphaned (volume " ++ strOr s.volumeId "" ++ " deleted)", none, none⟩]) := by
  have hms : (0 : Int) ≤ msPerDay := by norm_num [msPerDay]
  refine ⟨?_, ?_, ?_, ?_⟩
  · intro region th now ids s hth hnone
    by_cases horph : ebsSnapshotOrphaned ids (strOr s.volumeId "")
    · right
      simp [classifyEBSSnapshot, horph]
    · left
      have hnotold : ¬ th * msPerDay < snapshotAgeMs now s.startTime := by
        rw [hnone]
        exact not_lt.mpr (mul_nonneg hth hms)
      simp [classifyEBSSnapshot, horph, hnotold]
  · intro region th now ids s hth hnone
    by_cases hst : s.status = some "available"
    · by_cases horph : rdsSnapshotOrphaned ids (strOr s.dbInstanceIdentifier "")
      · right
        simp [classifyRDSSnapshot, hst, horph]
      · left
        have hnotold : ¬ th * msPerDay < snapshotAgeMs now s.snapshotCreateTime := by
          rw [hnone]
          exact not_lt.mpr (mul_nonneg hth hms)
        simp [classifyRDSSnapshot, hst, horph, hnotold]
    · left
      simp [classifyRDSSnapshot, hst]
  · intro region th now ids rp hth hnone
    by_cases hst : rp.status = some "COMPLETED"
    · by_cases horph : efsBackupOrphaned ids (extractEfsId (strOr rp.resourceArn ""))
      · right
        simp [classifyEFSRecoveryPoint, hst, horph]
      · left
        have hnotold : ¬ th * msPerDay < snapshotAgeMs now rp.creationDate := by
          rw [hnone]
          exact not_lt.mpr (mul_nonneg hth hms)
        simp [classifyEFSRecoveryPoint, hst, horph, hnotold]
    · left
      simp [classifyEFSRecoveryPoint, hst]
  · intro region th now ids s hnone horph
    simp [classifyEBSSnapshot, horph]

/-- Witness for C10 as amended: a timestamp-less EBS snapshot, RDS
snapshot and EFS recovery point under the default 90-day threshold, and
a timestamp-less orphaned EBS snapshot that is still flagged. -/
theorem missing_timestamp_never_old_flagged_witness :
    (classifyEBSSnapshot "us-east-1" 90 0 ["vol-1"]
        ⟨some "snap-2", [], some "vol-1", none, some "completed"⟩ = [] ∨
      classifyEBSSnapshot "us-east-1" 90 0 ["vol-1"]
          ⟨some "snap-2", [], some "vol-1", none, some "completed"⟩ =
        [⟨"EBS Snapshot", "snap-2", "snap-2", "us-east-1", 0,
          "Orphaned (volume vol-1 deleted)", none, none⟩]) ∧
    (classifyRDSSnapshot "us-east-1" 90 0 ["db-1"]
        ⟨some "rds-2", some "db-1", none, some "manual", some "available"⟩ = [] ∨
      classifyRDSSnapshot "us-east-1" 90 0 ["db-1"]
          ⟨some "rds-2", some "db-1", none, some "manual", some "available"⟩ =
        [⟨"RDS Snapshot", "rds-2", "rds-2", "us-east-1", 0,
          "Orphaned manual snapshot (DB db-1 deleted)", none, none⟩]) ∧
    (classifyEFSRecoveryPoint "us-east-1" 90 0 ["fs-abc123"]
        ⟨some "arn:aws:backup:us-east-1:1:recovery-point:rp-1",
         some "arn:aws:elasticfilesystem:us-east-1:1:file-system/fs-abc123",
         none, some "COMPLETED"⟩ = [] ∨
      classifyEFSRecoveryPoint "us-east-1" 90 0 ["fs-abc123"]
          ⟨some "arn:aws:backup:us-east-1:1:recovery-point:rp-1",
           some "arn:aws:elasticfilesystem:us-east-1:1:file-system/fs-abc123",
           none, some "COMPLETED"⟩ =
        [⟨"EFS Backup",
          strOr ((splitOnChar ':'
              (strOr (some "arn:aws:backup:us-east-1:1:recovery-point:rp-1") "")).getLast?)
            (strOr (some "arn:aws:backup:us-east-1:1:recovery-point:rp-1") ""),
          "Backup of " ++
            extractEfsId
              (strOr (some "arn:aws:elasticfilesystem:us-east-1:1:file-system/fs-abc123") ""),
          "us-east-1", 0,
          "Orphaned (EFS " ++
            extractEfsId
              (strOr (some "arn:aws:elasticfilesystem:us-east-1:1:file-system/fs-abc123") "")
            ++ " deleted)", none, none⟩]) ∧
    classifyEBSSnapshot "us-east-1" 90 0 []
        ⟨some "snap-3", [], some "vol-3", none, some "completed"⟩ =
      [⟨"EBS Snapshot", "snap-3", "snap-3", "us-east-1", 0,
        "Orphaned (volume vol-3 deleted)", none, none⟩] := by
  refine ⟨?_, ?_, ?_, ?_⟩
  · exact missing_timestamp_never_old_flagged.1 "us-east-1" 90 0 ["vol-1"]
      ⟨some "snap-2", [], some "vol-1", none, some "completed"⟩ (by decide) rfl
  · exact missing_timestamp_never_old_flagged.2.1 "us-east-1" 90 0 ["db-1"]
      ⟨some "rds-2", some "db-1", none, some "manual", some "available"⟩ (by decide) rfl
  · exact missing_timestamp_never_old_flagged.2.2.1 "us-east-1" 90 0 ["fs-abc123"]
      ⟨some "arn:aws:backup:us-east-1:1:recovery-point:rp-1",
       some "arn:aws:elasticfilesystem:us-east-1:1:file-system/fs-abc123",
       none, some "COMPLETED"⟩ (by decide) rfl
  · have h := missing_timestamp_never_old_flagged.2.2.2 "us-east-1" 90 0 []
      ⟨some "snap-3", [], some "vol-3", none, some "completed"⟩ rfl (by decide)
    simpa using h

/-- C1.  An inconclusive metric result (any negative sentinel, -1 error
or -2 no-data) never by itself produces an UnusedResource: every
confirmed-zero test (load balancer traffic, NAT gateway outbound
bytes, EFS client connections, EBS volume I/O, EKS node count, search
rate) and every below-threshold test (low CPU, low connections) is
guarded by a non-negativity check on its query result, so with the
relevant queries inconclusive the classifier emits nothing, and any
entry emitted while one query is inconclusive rests on another query
that returned a value at least 0. -/
theorem sentinel_metrics_never_flag :
    (∀ (region : String) (metric : MetricFn) (lb : LoadBalancer),
      lbTraffic metric lb < 0 → classifyLoadBalancer region metric lb = []) ∧
    (∀ (region : String) (metric : MetricFn) (natGw : NATGateway),
      natBytesOut metric (strOr natGw.natGatewayId "") < 0 →
      classifyNATGateway region metric natGw = []) ∧
    (∀ (region : String) (metric : MetricFn) (fs : EFSFileSystem),
      efsConnections metric (strOr fs.fileSystemId "") < 0 →
      classifyEFSFileSystem region metric fs = []) ∧
    (∀ (region : String) (metric : MetricFn) (volume : EBSVolume),
      volume.attachments.length ≠ 0 →
      (ebsReadOps metric (strOr volume.volumeId "") < 0 ∨
        ebsWriteOps metric (strOr volume.volumeId "") < 0) →
      classifyEBSVolume region metric volume = []) ∧
    (∀ (region : String) (metric : MetricFn) (cluster : EKSCluster),
      eksNodeCount metric cluster.name < 0 →
      ∀ r ∈ classifyEKSCluster region metric cluster,
        0 ≤ eksCpu metric cluster.name ∧ eksCpu metric cluster.name < CPU_THRESHOLD) ∧
    (∀ (region : String) (metric : MetricFn) (cluster : EKSCluster),
      eksNodeCount metric cluster.name < 0 → eksCpu metric cluster.name < 0 →
      classifyEKSCluster region metric cluster = []) ∧
    (∀ (region : String) (metric : MetricFn) (inst : EC2Instance),
      ec2Cpu metric (strOr inst.instanceId "") < 0 →
      ∀ r ∈ classifyEC2Instance region metric inst,
        0 ≤ ec2NetIn metric (strOr inst.instanceId "") ∧
        0 ≤ ec2NetOut metric (strOr inst.instanceId "")) ∧
    (∀ (region : String) (metric : MetricFn) (inst : EC2Instance),
      ec2Cpu metric (strOr inst.instanceId "") < 0 →
      (ec2NetIn metric (strOr inst.instanceId "") < 0 ∨
        ec2NetOut metric (strOr inst.instanceId "") < 0) →
      classifyEC2Instance region metric inst = []) ∧
    (∀ (region : String) (metric : MetricFn) (inst : DBInstance),
      rdsConnections metric (strOr inst.dbInstanceIdentifier "") < 0 →
      ∀ r ∈ classifyRDSInstance region metric inst,
        0 ≤ rdsCpu metric (strOr inst.dbInstanceIdentifier "") ∧
        rdsCpu metric (strOr inst.dbInstanceIdentifier "") < CPU_THRESHOLD) ∧
    (∀ (region : String) (metric : MetricFn) (inst : DBInstance),
      rdsConnections metric (strOr inst.dbInstanceIdentifier "") < 0 →
      rdsCpu metric (strOr inst.dbInstanceIdentifier "") < 0 →
      classifyRDSInstance region metric inst = []) ∧
    (∀ (region : String) (metric : MetricFn) (clusterName : String)
       (service : ECSService),
      ecsCpu metric clusterName (strOr service.serviceName "") < 0 →
      ¬ (service.runningCount = some 0 ∧ service.desiredCount = some 0) →
      classifyECSService region metric clusterName service = []) ∧
    (∀ (region : String) (metric : MetricFn) (cluster : CacheCluster),
      cacheConnections metric (strOr cluster.cacheClusterId "") < 0 →
      cacheCpu metric (strOr cluster.cacheClusterId "") < 0 →
      classifyCacheCluster region metric cluster = []) ∧
    (∀ (region : String) (metric : MetricFn) (cluster : RedshiftCluster),
      redshiftConnections metric (strOr cluster.clusterIdentifier "") < 0 →
      redshiftCpu metric (strOr cluster.clusterIdentifier "") < 0 →
      classifyRedshiftCluster region metric cluster = []) ∧
    (∀ (region : String) (metric : MetricFn) (domain : OpenSearchDomain),
      osSearchRate metric domain (strOr domain.domainName "") < 0 →
      osCpu metric domain (strOr domain.domainName "") < 0 →
      classifyOpenSearchDomain region metric domain = []) := by
  refine ⟨?_, ?_, ?_, ?_, ?_, ?_, ?_, ?_, ?_, ?_, ?_, ?_, ?_, ?_⟩
  · intro region metric lb h
    simp only [classifyLoadBalancer]
    split_ifs with hc
    · exact absurd hc.1 (not_le.mpr h)
    · rfl
  · intro region metric natGw h
    simp only [classifyNATGateway]
    split_ifs with hc
    · exact absurd hc.1 (not_le.mpr h)
    · rfl
  · intro region metric fs h
    simp only [classifyEFSFileSystem]
    split_ifs with hc
    · exact absurd hc.1 (not_le.mpr h)
    · rfl
  · intro region metric volume hatt h
    simp only [classifyEBSVolume]
    split_ifs with h0 hc
    · exact absurd h0 hatt
    · rcases h with h | h
      · exact absurd hc.1 (not_le.mpr h)
      · exact absurd hc.2.1 (not_le.mpr h)
    · rfl
  · intro region metric cluster h
    simp only [classifyEKSCluster]
    split_ifs with h1 h2 h3
    · exact absurd h2.1 (not_le.mpr h)
    · intro r hr
      exact h3
    · intro r hr
      simp at hr
    · intro r hr
      simp at hr
  · intro region metric cluster h hcpu
    simp only [classifyEKSCluster]
    split_ifs with h1 h2 h3
    · exact absurd h2.1 (not_le.mpr h)
    · exact absurd h3.1 (not_le.mpr hcpu)
    · rfl
    · rfl
  · intro region metric inst h
    simp only [classifyEC2Instance]
    split_ifs with h1 h2
    · exact absurd h1.1 (not_le.mpr h)
    · intro r hr
      exact ⟨h2.1, h2.2.1⟩
    · intro r hr
      simp at hr
  · intro region metric inst h hnet
    simp only [classifyEC2Instance]
    split_ifs with h1 h2
    · exact absurd h1.1 (not_le.mpr h)
    · rcases hnet with hn | hn
      · exact absurd h2.1 (not_le.mpr hn)
      · exact absurd h2.2.1 (not_le.mpr hn)
    · rfl
  · intro region metric inst h
    simp only [classifyRDSInstance]
    split_ifs with h1 h2 h3
    · exact absurd h2.1 (not_le.mpr h)
    · intro r hr
      exact h3
    · intro r hr
      simp at hr
    · intro r hr
      simp at hr
  · intro region metric inst h hcpu
    simp only [classifyRDSInstance]
    split_ifs with h1 h2 h3
    · exact absurd h2.1 (not_le.mpr h)
    · exact absurd h3.1 (not_le.mpr hcpu)
    · rfl
    · rfl
  · intro region metric clusterName service h hrun
    simp only [classifyECSService]
    rw [if_neg hrun]
    cases hrc : service.runningCount with
    | none => rfl
    | some n =>
      dsimp only
      split_ifs with h2 h3
      · exact absurd h3.1 (not_le.mpr h)
      · rfl
      · rfl
  · intro region metric cluster h hcpu
    simp only [classifyCacheCluster]
    split_ifs with h1 h2 h3
    · exact absurd h2.1 (not_le.mpr h)
    · exact absurd h3.1 (not_le.mpr hcpu)
    · rfl
    · rfl
  · intro region metric cluster h hcpu
    simp only [classifyRedshiftCluster]
    split_ifs with h1 h2 h3
    · exact absurd h2.1 (not_le.mpr h)
    · exact absurd h3.1 (not_le.mpr hcpu)
    · rfl
    · rfl
  · intro region metric domain h hcpu
    simp only [classifyOpenSearchDomain]
    split_ifs with h1 h2 h3
    · exact absurd h2.1 (not_le.mpr h)
    · exact absurd h3.1 (not_le.mpr hcpu)
    · rfl
    · rfl

/-- Witness for C1: with every metric query inconclusive (sentinel -2),
no classifier emits anything for concrete inventory items. -/
theorem sentinel_metrics_never_flag_witness :
    classifyLoadBalancer "us-east-1" negMetric
        ⟨some "arn:aws:elasticloadbalancing:us-east-1:1:loadbalancer/app/my-lb/abc",
         some "my-lb", some "application"⟩ = [] ∧
    classifyNATGateway "us-east-1" negMetric ⟨some "nat-1", []⟩ = [] ∧
    classifyEFSFileSystem "us-east-1" negMetric ⟨some "fs-1", none⟩ = [] ∧
    classifyEBSVolume "us-east-1" negMetric ⟨some "vol-1", [], ["i-1"]⟩ = [] ∧
    classifyEKSCluster "us-east-1" negMetric ⟨"clu-1", some "ACTIVE", none⟩ = [] ∧
    classifyEC2Instance "us-east-1" negMetric ⟨some "i-1", []⟩ = [] ∧
    classifyRDSInstance "us-east-1" negMetric ⟨some "db-1", some "available"⟩ = [] ∧
    classifyECSService "us-east-1" negMetric "clu-1"
        ⟨some "svc-arn-1", some "svc-1", some 2, some 2⟩ = [] ∧
    classifyCacheCluster "us-east-1" negMetric ⟨some "cache-1", some "available"⟩ = [] ∧
    classifyRedshiftCluster "us-east-1" negMetric ⟨some "wh-1", some "available"⟩ = [] ∧
    classifyOpenSearchDomain "us-east-1" negMetric
        ⟨some "search-1", some true, none, some "1/search-1"⟩ = [] :=
  ⟨sentinel_metrics_never_flag.1 "us-east-1" negMetric
     ⟨some "arn:aws:elasticloadbalancing:us-east-1:1:loadbalancer/app/my-lb/abc",
      some "my-lb", some "application"⟩ (by decide),
   sentinel_metrics_never_flag.2.1 "us-east-1" negMetric ⟨some "nat-1", []⟩ (by decide),
   sentinel_metrics_never_flag.2.2.1 "us-east-1" negMetric ⟨some "fs-1", none⟩ (by decide),
   sentinel_metrics_never_flag.2.2.2.1 "us-east-1" negMetric ⟨some "vol-1", [], ["i-1"]⟩
     (by decide) (by decide),
   sentinel_metrics_never_flag.2.2.2.2.2.1 "us-east-1" negMetric
     ⟨"clu-1", some "ACTIVE", none⟩ (by decide) (by decide),
   sentinel_metrics_never_flag.2.2.2.2.2.2.2.1 "us-east-1" negMetric ⟨some "i-1", []⟩
     (by decide) (by decide),
   sentinel_metrics_never_flag.2.2.2.2.2.2.2.2.2.1 "us-east-1" negMetric
     ⟨some "db-1", some "available"⟩ (by decide) (by decide),
   sentinel_metrics_never_flag.2.2.2.2.2.2.2.2.2.2.1 "us-east-1" negMetric "clu-1"
     ⟨some "svc-arn-1", some "svc-1", some 2, some 2⟩ (by decide) (by decide),
   sentinel_metrics_never_flag.2.2.2.2.2.2.2.2.2.2.2.1 "us-east-1" negMetric
     ⟨some "cache-1", some "available"⟩ (by decide) (by decide),
   sentinel_metrics_never_flag.2.2.2.2.2.2.2.2.2.2.2.2.1 "us-east-1" negMetric
     ⟨some "wh-1", some "available"⟩ (by decide) (by decide),
   sentinel_metrics_never_flag.2.2.2.2.2.2.2.2.2.2.2.2.2 "us-east-1" negMetric
     ⟨some "search-1", some true, none, some "1/search-1"⟩ (by decide) (by decide)⟩

lemma classifyECSService_resourceId (region : String) (metric : MetricFn)
    (clusterName : String) (svc : ECSService) :
    ∀ r ∈ classifyECSService region metric clusterName svc,
      r.resourceId = strOr svc.serviceArn "" := by
  simp only [classifyECSService]
  split_ifs with h1 h4
  · intro r hr
    simp at hr
    subst hr
    rfl
  · intro r hr
    cases hrc : svc.runningCount with
    | none =>
      rw [hrc] at hr
      simp at hr
    | some n =>
      rw [hrc] at hr
      dsimp only at hr
      split_ifs at hr with h2
      · simp at hr
        subst hr
        rfl
      · simp at hr
  · intro r hr
    cases hrc : svc.runningCount with
    | none =>
      rw [hrc] at hr
      simp at hr
    | some n =>
      rw [hrc] at hr
      simp at hr

/-- C9.  For an ECS cluster, every emitted entry is either the
cluster-level no-services entry or belongs to one of the first ten
listed services: a service beyond the first ten in the listing is never
described, hence never flagged, whatever its running or desired
counts. -/
theorem ecs_only_first_ten_services :
    ∀ (region : String) (metric : MetricFn) (clusterArn : String)
      (serviceArns : List String) (describeService : String → ECSService),
      (∀ a ∈ serviceArns, (describeService a).serviceArn = some a) →
      ∀ r ∈ classifyECSCluster region metric clusterArn serviceArns describeService,
        r.reason = "No services in cluster" ∨ r.resourceId ∈ serviceArns.take 10 := by
  intro region metric clusterArn serviceArns describeService hdesc
  simp only [classifyECSCluster]
  split_ifs with h0
  · intro r hr
    simp at hr
    subst hr
    left
    rfl
  · intro r hr
    right
    rw [List.mem_flatMap] at hr
    obtain ⟨svc, hsvc, hrin⟩ := hr
    rw [List.mem_map] at hsvc
    obtain ⟨a, ha, rfl⟩ := hsvc
    have hid := classifyECSService_resourceId region metric _ (describeService a) r hrin
    rw [hid, hdesc a (List.mem_of_mem_take ha), strOr_some_self]
    exact ha

/-- Witness for C9: in a cluster listing twelve services, all of them
with zero running and desired counts, the flagged entry of service
svc-1 lies within the first ten listed services. -/
theorem ecs_only_first_ten_services_witness :
    (⟨"Amazon ECS", "svc-1", "svc-1", "us-east-1", 0, "No running tasks", none, none⟩ :
        UnusedResource).reason = "No services in cluster" ∨
    (⟨"Amazon ECS", "svc-1", "svc-1", "us-east-1", 0, "No running tasks", none, none⟩ :
        UnusedResource).resourceId ∈
      (["svc-1", "svc-2", "svc-3", "svc-4", "svc-5", "svc-6", "svc-7", "svc-8",
        "svc-9", "svc-10", "svc-11", "svc-12"].take 10) :=
  ecs_only_first_ten_services "us-east-1" negMetric "arn:aws:ecs:cluster/clu-1"
    ["svc-1", "svc-2", "svc-3", "svc-4", "svc-5", "svc-6", "svc-7", "svc-8",
     "svc-9", "svc-10", "svc-11", "svc-12"]
    (fun a => ⟨some a, some a, some 0, some 0⟩) (by decide)
    ⟨"Amazon ECS", "svc-1", "svc-1", "us-east-1", 0, "No running tasks", none, none⟩
    (by decide)
